import Mathlib

/-!
# Verification of the `updog` process-supervision core

A shallow embedding of `src/config.rs` and `src/package_manager.rs`.

Pure configuration lookup (`Config::find_subcommand` and friends) is
translated directly.  The effectful executor (`PackageManager`) is embedded
by threading the `ProcessTracker` state explicitly and by abstracting the
operating system into an `OsBehavior` oracle that decides, per spawned
command, whether `spawn` succeeds (and with which pid), whether a concurrent
shutdown request lands in the window between `spawn` and the re-check of the
shutdown flag, and what `wait` returns.  Observable side effects (spawning a
child, sending SIGTERM, `wait` returning, calling `std::process::exit`) are
recorded in an event trace.
-/

/-- `config.rs`: `CommandSequence` — a single shell command or an ordered
list of commands. -/
inductive CommandSequence where
  | Single (cmd : String)
  | Multiple (cmds : List String)
deriving Repr, DecidableEq

/-- `config.rs`: `UpdateCommand` — the optional check and update sequences of
one subcommand. -/
structure UpdateCommand where
  check : Option CommandSequence
  update : Option CommandSequence
deriving Repr, DecidableEq

/-- `config.rs`: `SubcommandConfig`. -/
structure SubcommandConfig where
  id : String
  command : UpdateCommand
deriving Repr, DecidableEq

/-- `config.rs`: `PackageManagerConfig` — a named manager with a subcommand
list and legacy direct top-level `check`/`update` fields. -/
structure PackageManagerConfig where
  id : String
  subcommands : List SubcommandConfig
  check : Option CommandSequence
  update : Option CommandSequence
deriving Repr, DecidableEq

/-- `config.rs`: `Config` — the ordered list of configured managers. -/
structure Config where
  commands : List PackageManagerConfig
deriving Repr, DecidableEq

/-- `PackageManagerConfig::find_subcommand`: first subcommand with the given
id. -/
def PackageManagerConfig.find_subcommand (pm : PackageManagerConfig)
    (id : String) : Option SubcommandConfig :=
  pm.subcommands.find? (fun sc => sc.id == id)

/-- `PackageManagerConfig::default_subcommand`: the subcommand named
`"default"`, else the first subcommand, else `None` (the source's final two
branches both return `None`). -/
def PackageManagerConfig.default_subcommand (pm : PackageManagerConfig) :
    Option SubcommandConfig :=
  match pm.find_subcommand "default" with
  | some sc => some sc
  | none =>
    match pm.subcommands with
    | sc :: _ => some sc
    | [] => none

/-- `Config::find_package_manager`: first manager with the given id. -/
def Config.find_package_manager (c : Config) (id : String) :
    Option PackageManagerConfig :=
  c.commands.find? (fun pm => pm.id == id)

/-- `Config::find_subcommand` (`config.rs` lines 212-237): resolve a manager
name and optional subcommand name to a `SubcommandConfig`.  When a subcommand
name is given explicitly it must be in the subcommand list; the legacy direct
top-level fields are consulted only when no subcommand name is given and no
default subcommand exists. -/
def Config.find_subcommand (c : Config) (manager_id : String)
    (subcommand_id : Option String) : Option SubcommandConfig :=
  match c.find_package_manager manager_id with
  | none => none
  | some manager =>
    match subcommand_id with
    | some sc_id =>
      match manager.find_subcommand sc_id with
      | some sc => some sc
      | none => none
    | none =>
      match manager.default_subcommand with
      | some sc => some sc
      | none =>
        if manager.check.isSome || manager.update.isSome then
          some { id := "default",
                 command := { check := manager.check, update := manager.update } }
        else
          none

/-! ## Executor state and the operating-system oracle -/

/-- `std::process::ExitStatus`, restricted to what `wait` can deliver on
Unix: a normal exit with a code, or death by a signal (in which case
`code()` is `None` and `success()` is false). -/
inductive ExitStatus where
  | exited (code : Nat)
  | signaled (sig : Nat)
deriving Repr, DecidableEq

/-- `ExitStatus::success()`: true exactly for exit code 0. -/
def ExitStatus.success : ExitStatus → Bool
  | .exited 0 => true
  | _ => false

/-- `ExitStatus::default()`, used by the dry-run branch: a raw status of 0,
i.e. a successful exit. -/
def ExitStatus.defaultStatus : ExitStatus := .exited 0

/-- The `Display` rendering of an `ExitStatus` (Rust std on Unix). -/
def ExitStatus.display : ExitStatus → String
  | .exited c => "exit status: " ++ toString c
  | .signaled s => "signal: " ++ toString s

/-- `package_manager.rs`: `UpdateError` — every failure carries only a
message string; the four construction sites are distinguished by their
message prefixes. -/
structure UpdateError where
  message : String
deriving Repr, DecidableEq

/-- Observable side effects of the executor and the signal handler. -/
inductive Event where
  | spawned (pid : Nat)
  | sigterm (pid : Nat)
  | waited (pid : Nat)
  | exitProgram (code : Nat)
deriving Repr, DecidableEq

/-- Whether an event is a whole-program exit. -/
def Event.isExitProgram : Event → Bool
  | .exitProgram _ => true
  | _ => false

/-- The operating system's behaviour for one attempted command: the result of
`Command::spawn` (an error message or a pid), whether a concurrent shutdown
request arrives in the window between the successful spawn and the
executor's re-check of the shutdown flag, and the result of
`Child::wait`. -/
structure OsBehavior where
  spawn : Except String Nat
  shutdownDuringSpawn : Bool
  wait : Except String ExitStatus

/-- `package_manager.rs`: `ProcessTracker` — the set of active process ids
(a `HashSet<u32>`, modelled as a duplicate-free list) and the atomic
shutdown flag. -/
structure ProcessTracker where
  active_processes : List Nat
  shutdown_requested : Bool
deriving Repr, DecidableEq

/-- `ProcessTracker::register_process`: insert the pid into the set (no-op
if already present). -/
def ProcessTracker.register_process (tr : ProcessTracker) (pid : Nat) :
    ProcessTracker :=
  { tr with active_processes := tr.active_processes.insert pid }

/-- `ProcessTracker::unregister_process`: remove the pid from the set (no-op
if absent). -/
def ProcessTracker.unregister_process (tr : ProcessTracker) (pid : Nat) :
    ProcessTracker :=
  { tr with active_processes := tr.active_processes.filter (fun p => p != pid) }

/-- `ProcessTracker::request_shutdown`: set the shutdown flag. -/
def ProcessTracker.request_shutdown (tr : ProcessTracker) : ProcessTracker :=
  { tr with shutdown_requested := true }

/-- `ProcessTracker::is_shutdown_requested`. -/
def ProcessTracker.is_shutdown_requested (tr : ProcessTracker) : Bool :=
  tr.shutdown_requested

/-- `ProcessTracker::terminate_all_processes` (Unix): send SIGTERM to every
registered pid; the set itself is not modified. -/
def ProcessTracker.terminate_all_processes (tr : ProcessTracker) : List Event :=
  tr.active_processes.map Event.sigterm

/-! ## The executor -/

/-- `package_manager.rs`: `PackageManager` — the configuration and the
dry-run flag (the tracker is threaded explicitly). -/
structure PackageManager where
  config : Config
  dry_run : Bool

/-- `PackageManager::run_single_command` (`package_manager.rs` lines
120-205).  Dry run: synthetic success, no spawn, no registration.
Otherwise: spawn (recording the event); on spawn failure return a spawn
error.  On success register the pid, re-check the shutdown flag (which a
concurrent signal may have set during the spawn window); if set, send the
child SIGTERM and return the cancellation error without waiting and without
unregistering.  Otherwise wait; if `wait` itself fails, return a wait error
(the source does not unregister on this path); on `wait` success unregister
and return the exit status. -/
def PackageManager.run_single_command (pm : PackageManager) (os : OsBehavior)
    (command : String) (tr : ProcessTracker) :
    Except UpdateError ExitStatus × ProcessTracker × List Event :=
  if pm.dry_run then
    (Except.ok ExitStatus.defaultStatus, tr, [])
  else
    match os.spawn with
    | .error e =>
      (Except.error ⟨"Failed to execute command: " ++ e⟩, tr, [])
    | .ok pid =>
      let tr1 := if os.shutdownDuringSpawn then tr.request_shutdown else tr
      let tr2 := tr1.register_process pid
      if tr2.is_shutdown_requested then
        (Except.error ⟨"Operation was cancelled"⟩, tr2,
          [Event.spawned pid, Event.sigterm pid])
      else
        match os.wait with
        | .error e =>
          (Except.error ⟨"Failed to wait for command: " ++ e⟩, tr2,
            [Event.spawned pid, Event.waited pid])
        | .ok status =>
          (Except.ok status, tr2.unregister_process pid,
            [Event.spawned pid, Event.waited pid])

/-- The `CommandSequence::Multiple` loop of `PackageManager::execute_command`
(lines 102-115): run the steps in order, stopping at the first step that
errors or exits unsuccessfully.  `env i` is the operating system's behaviour
for the i-th remaining step. -/
def PackageManager.run_commands (pm : PackageManager) :
    (Nat → OsBehavior) → List String → ProcessTracker →
    Except UpdateError Unit × ProcessTracker × List Event
  | _, [], tr => (Except.ok (), tr, [])
  | env, cmd :: rest, tr =>
    match pm.run_single_command (env 0) cmd tr with
    | (.error e, tr1, ev1) => (Except.error e, tr1, ev1)
    | (.ok status, tr1, ev1) =>
      if status.success then
        let r := pm.run_commands (fun i => env (i + 1)) rest tr1
        (r.1, r.2.1, ev1 ++ r.2.2)
      else
        (Except.error ⟨"Command failed with exit code: " ++ status.display⟩,
          tr1, ev1)

/-- `PackageManager::execute_command` (lines 86-117): a single command is run
directly; a multiple sequence runs fail-fast in declared order. -/
def PackageManager.execute_command (pm : PackageManager)
    (env : Nat → OsBehavior) (tr : ProcessTracker) :
    CommandSequence → Except UpdateError Unit × ProcessTracker × List Event
  | .Single cmd =>
    match pm.run_single_command (env 0) cmd tr with
    | (.error e, tr1, ev1) => (Except.error e, tr1, ev1)
    | (.ok status, tr1, ev1) =>
      if status.success then
        (Except.ok (), tr1, ev1)
      else
        (Except.error ⟨"Command failed with exit code: " ++ status.display⟩,
          tr1, ev1)
  | .Multiple cmds => pm.run_commands env cmds tr

/-- The `:subcommand` suffix used in the facade's log and error messages
(`subcommand_name.map_or("", |s| format!(":{}", s))`). -/
def subcommandSuffix : Option String → String
  | some s => ":" ++ s
  | none => ""

/-- `PackageManager::check_with_subcommand` (lines 286-328): resolve, then
run the check sequence; resolution failure and a missing check command each
return an error without invoking the executor. -/
def PackageManager.check_with_subcommand (pm : PackageManager)
    (env : Nat → OsBehavior) (tr : ProcessTracker) (manager_name : String)
    (subcommand_name : Option String) :
    Except UpdateError Unit × ProcessTracker × List Event :=
  match pm.config.find_subcommand manager_name subcommand_name with
  | none =>
    let message :=
      match subcommand_name with
      | some sc =>
        "Unknown subcommand '" ++ sc ++ "' for package manager '" ++
          manager_name ++ "'"
      | none => "Unknown package manager or default subcommand: " ++ manager_name
    (Except.error ⟨message⟩, tr, [])
  | some subcommand =>
    match subcommand.command.check with
    | some check_cmd => pm.execute_command env tr check_cmd
    | none =>
      (Except.error ⟨"No check command specified for " ++ manager_name ++
        subcommandSuffix subcommand_name⟩, tr, [])

/-- `PackageManager::update_with_subcommand` (lines 331-373): as for check,
with the update sequence. -/
def PackageManager.update_with_subcommand (pm : PackageManager)
    (env : Nat → OsBehavior) (tr : ProcessTracker) (manager_name : String)
    (subcommand_name : Option String) :
    Except UpdateError Unit × ProcessTracker × List Event :=
  match pm.config.find_subcommand manager_name subcommand_name with
  | none =>
    let message :=
      match subcommand_name with
      | some sc =>
        "Unknown subcommand '" ++ sc ++ "' for package manager '" ++
          manager_name ++ "'"
      | none => "Unknown package manager or default subcommand: " ++ manager_name
    (Except.error ⟨message⟩, tr, [])
  | some subcommand =>
    match subcommand.command.update with
    | some update_cmd => pm.execute_command env tr update_cmd
    | none =>
      (Except.error ⟨"No update command specified for " ++ manager_name ++
        subcommandSuffix subcommand_name⟩, tr, [])

/-- The body of the signal-handler thread installed by
`PackageManager::setup_signal_handlers` (Unix, lines 255-263), for one
received signal: set the shutdown flag, send SIGTERM to every registered
pid, and break out of the loop.  The source contains no call to
`std::process::exit`, so no `Event.exitProgram` is ever emitted. -/
def handle_signal (sig : Nat) (tr : ProcessTracker) :
    ProcessTracker × List Event :=
  let tr1 := tr.request_shutdown
  (tr1, tr1.terminate_all_processes)

/-- A per-step oracle under which a step runs to a successful completion:
the spawn succeeds, no shutdown arrives during the spawn window, and the
wait returns a successful exit status. -/
def stepSucceeds (os : OsBehavior) : Bool :=
  (match os.spawn with | .ok _ => true | .error _ => false) &&
    !os.shutdownDuringSpawn &&
    (match os.wait with | .ok st => st.success | .error _ => false)

/-! ## Helper lemmas -/

theorem ProcessTracker.shutdown_register (tr : ProcessTracker) (pid : Nat) :
    (tr.register_process pid).shutdown_requested = tr.shutdown_requested := rfl

theorem ProcessTracker.shutdown_request_shutdown (tr : ProcessTracker) :
    tr.request_shutdown.shutdown_requested = true := rfl

theorem ProcessTracker.mem_register (tr : ProcessTracker) (pid : Nat) :
    pid ∈ (tr.register_process pid).active_processes :=
  List.mem_insert_self pid tr.active_processes

/-- Characterisation of `run_single_command` on the cancellation path: not a
dry run, spawn succeeded, and the shutdown flag is observed set at the
re-check (either it was set on entry or a shutdown arrived during the spawn
window). -/
theorem run_single_command_cancel (pm : PackageManager) (os : OsBehavior)
    (cmd : String) (tr : ProcessTracker) (pid : Nat)
    (hdr : pm.dry_run = false) (hsp : os.spawn = Except.ok pid)
    (hflag : tr.shutdown_requested = true ∨ os.shutdownDuringSpawn = true) :
    pm.run_single_command os cmd tr =
      (Except.error ⟨"Operation was cancelled"⟩,
       (if os.shutdownDuringSpawn then tr.request_shutdown else tr).register_process pid,
       [Event.spawned pid, Event.sigterm pid]) := by
  have hflag2 : ((if os.shutdownDuringSpawn then tr.request_shutdown else
      tr).register_process pid).is_shutdown_requested = true := by
    rcases hflag with h | h
    · cases hds : os.shutdownDuringSpawn <;>
        simp [ProcessTracker.is_shutdown_requested, ProcessTracker.register_process,
          ProcessTracker.request_shutdown, h]
    · simp [h, ProcessTracker.is_shutdown_requested, ProcessTracker.register_process,
        ProcessTracker.request_shutdown]
  simp [PackageManager.run_single_command, hdr, hsp, hflag2]

/-- Characterisation of `run_single_command` on the wait path: not a dry
run, spawn succeeded, and no shutdown is pending at the re-check. -/
theorem run_single_command_wait (pm : PackageManager) (os : OsBehavior)
    (cmd : String) (tr : ProcessTracker) (pid : Nat)
    (hdr : pm.dry_run = false) (hsp : os.spawn = Except.ok pid)
    (htr : tr.shutdown_requested = false) (hds : os.shutdownDuringSpawn = false) :
    pm.run_single_command os cmd tr =
      match os.wait with
      | .error e =>
        (Except.error ⟨"Failed to wait for command: " ++ e⟩,
         tr.register_process pid, [Event.spawned pid, Event.waited pid])
      | .ok status =>
        (Except.ok status, (tr.register_process pid).unregister_process pid,
         [Event.spawned pid, Event.waited pid]) := by
  have hflag2 : ((tr.register_process pid).is_shutdown_requested) = false := by
    simp [ProcessTracker.is_shutdown_requested, ProcessTracker.register_process, htr]
  simp [PackageManager.run_single_command, hdr, hsp, hds, hflag2]

/-- Fail-fast absorption: once a prefix of the step list has produced an
error, appending further steps changes neither the result, nor the tracker
state, nor the event trace — the later steps are never executed. -/
theorem run_commands_error_append (pm : PackageManager) (cmds1 : List String) :
    ∀ (env : Nat → OsBehavior) (tr : ProcessTracker) (cmds2 : List String)
      (e : UpdateError) (tr' : ProcessTracker) (ev : List Event),
      pm.run_commands env cmds1 tr = (Except.error e, tr', ev) →
      pm.run_commands env (cmds1 ++ cmds2) tr = (Except.error e, tr', ev) := by
  induction cmds1 with
  | nil =>
    intro env tr cmds2 e tr' ev h
    simp [PackageManager.run_commands] at h
  | cons cmd rest ih =>
    intro env tr cmds2 e tr' ev h
    rw [List.cons_append]
    simp only [PackageManager.run_commands] at h ⊢
    rcases hrs : pm.run_single_command (env 0) cmd tr with ⟨res, tr1, ev1⟩
    rw [hrs] at h
    cases res with
    | error e1 =>
      exact h
    | ok status =>
      cases hsucc : status.success with
      | false =>
        simp only [hsucc, Bool.false_eq_true, if_false] at h ⊢
        exact h
      | true =>
        simp only [hsucc, eq_self_iff_true, if_true] at h ⊢
        rcases hr : pm.run_commands (fun i => env (i + 1)) rest tr1 with ⟨r1, tr2, ev2⟩
        rw [hr] at h
        simp only [Prod.mk.injEq] at h
        obtain ⟨h1, h2, h3⟩ := h
        rw [ih (fun i => env (i + 1)) tr1 cmds2 e tr2 ev2 (by rw [hr, h1])]
        simp [h2, h3]

/-- Under a per-step oracle satisfying `stepSucceeds` and with no shutdown
pending, `run_single_command` returns a successful exit status and leaves
the shutdown flag clear. -/
theorem run_single_command_success_step (pm : PackageManager) (os : OsBehavior)
    (cmd : String) (tr : ProcessTracker)
    (htr : tr.shutdown_requested = false) (hos : stepSucceeds os = true) :
    ∃ st tr' ev, pm.run_single_command os cmd tr = (Except.ok st, tr', ev) ∧
      st.success = true ∧ tr'.shutdown_requested = false := by
  by_cases hdr : pm.dry_run
  · refine ⟨ExitStatus.defaultStatus, tr, [], ?_, rfl, htr⟩
    simp [PackageManager.run_single_command, hdr]
  · rw [Bool.not_eq_true] at hdr
    rcases hsp : os.spawn with e | pid
    · rw [stepSucceeds, hsp] at hos
      simp at hos
    · rcases hw : os.wait with e | st
      · rw [stepSucceeds, hsp, hw] at hos
        simp at hos
      · have hds : os.shutdownDuringSpawn = false := by
          rw [stepSucceeds, hsp, hw] at hos
          rcases Bool.and_eq_true .. ▸ hos with ⟨h1, _⟩
          rcases Bool.and_eq_true .. ▸ h1 with ⟨_, h2⟩
          simpa using h2
        have hsucc : st.success = true := by
          rw [stepSucceeds, hsp, hw] at hos
          exact (Bool.and_eq_true .. ▸ hos).2
        refine ⟨st, (tr.register_process pid).unregister_process pid,
          [Event.spawned pid, Event.waited pid], ?_, hsucc, ?_⟩
        · rw [run_single_command_wait pm os cmd tr pid hdr hsp htr hds, hw]
        · simpa [ProcessTracker.unregister_process, ProcessTracker.register_process]
            using htr

/-- If no shutdown is pending and every step's oracle satisfies
`stepSucceeds`, the whole step list runs to success. -/
theorem run_commands_all_success (pm : PackageManager) (cmds : List String) :
    ∀ (env : Nat → OsBehavior) (tr : ProcessTracker),
      tr.shutdown_requested = false →
      (∀ i, i < cmds.length → stepSucceeds (env i) = true) →
      (pm.run_commands env cmds tr).1 = Except.ok () := by
  induction cmds with
  | nil =>
    intro env tr _ _
    simp [PackageManager.run_commands]
  | cons cmd rest ih =>
    intro env tr htr henv
    obtain ⟨st, tr', ev, hrun, hsucc, htr'⟩ :=
      run_single_command_success_step pm (env 0) cmd tr htr
        (henv 0 (by simp))
    simp only [PackageManager.run_commands, hrun, hsucc, eq_self_iff_true, if_true]
    exact ih (fun i => env (i + 1)) tr' htr'
      (fun i hi => henv (i + 1) (by simpa using Nat.succ_lt_succ hi))

/-! ## Claims -/

/-- C6: in dry-run mode `run_single_command` returns a synthetic success
status for every command, with no spawn event, no registration, and no
tracker change at all; the status is a genuine success status, so
`execute_command` on that command reports plain success — indistinguishable
to callers from a real success. -/
theorem dry_run_is_synthetic_success (c : Config) (os : OsBehavior)
    (env : Nat → OsBehavior) (cmd : String) (tr : ProcessTracker) :
    (PackageManager.mk c true).run_single_command os cmd tr =
      (Except.ok ExitStatus.defaultStatus, tr, []) ∧
    ExitStatus.defaultStatus.success = true ∧
    (PackageManager.mk c true).execute_command env tr (CommandSequence.Single cmd) =
      (Except.ok (), tr, []) := by
  refine ⟨?_, rfl, ?_⟩
  · simp [PackageManager.run_single_command]
  · simp [PackageManager.execute_command, PackageManager.run_single_command,
      ExitStatus.defaultStatus, ExitStatus.success]

/-- C1 counterexample: with the shutdown flag already set before the step
starts and a spawn succeeding with pid 42, the step does return the
cancellation error — but a child process IS spawned for that step (the
event trace records the spawn), refuting "no child process is spawned for
that step". -/
theorem shutdown_before_step_spawn_counterexample :
    ((PackageManager.mk (Config.mk []) false).run_single_command
        (OsBehavior.mk (Except.ok 42) false (Except.ok (ExitStatus.exited 0)))
        "echo hi" (ProcessTracker.mk [] true)).1 =
      Except.error (UpdateError.mk "Operation was cancelled") ∧
    (((PackageManager.mk (Config.mk []) false).run_single_command
        (OsBehavior.mk (Except.ok 42) false (Except.ok (ExitStatus.exited 0)))
        "echo hi" (ProcessTracker.mk [] true)).2.2.contains
      (Event.spawned 42)) = true :=
  ⟨rfl, rfl⟩

/-- C1 (amended): if `requestShutdown` has been called before any step of a
command sequence starts, the first step that would start (non-dry-run, with
a succeeding spawn) returns a CancellationError and the sequence aborts;
the child process for that step IS spawned, but it is immediately sent
SIGTERM and is never waited for. -/
theorem shutdown_before_sequence_cancels_first_step (pm : PackageManager)
    (env : Nat → OsBehavior) (tr : ProcessTracker) (pid : Nat) (cmd : String)
    (rest : List String)
    (hdr : pm.dry_run = false) (hsh : tr.shutdown_requested = true)
    (hsp : (env 0).spawn = Except.ok pid) :
    ((pm.execute_command env tr (CommandSequence.Single cmd)).1 =
        Except.error (UpdateError.mk "Operation was cancelled") ∧
      (pm.execute_command env tr (CommandSequence.Single cmd)).2.2 =
        [Event.spawned pid, Event.sigterm pid]) ∧
    ((pm.execute_command env tr (CommandSequence.Multiple (cmd :: rest))).1 =
        Except.error (UpdateError.mk "Operation was cancelled") ∧
      (pm.execute_command env tr (CommandSequence.Multiple (cmd :: rest))).2.2 =
        [Event.spawned pid, Event.sigterm pid]) := by
  have hc := run_single_command_cancel pm (env 0) cmd tr pid hdr hsp (Or.inl hsh)
  constructor
  · constructor <;> simp [PackageManager.execute_command, hc]
  · constructor <;>
      simp [PackageManager.execute_command, PackageManager.run_commands, hc]

theorem shutdown_before_sequence_cancels_first_step_witness :
    ((PackageManager.mk (Config.mk []) false).execute_command
        (fun _ => OsBehavior.mk (Except.ok 42) false
          (Except.ok (ExitStatus.exited 0)))
        (ProcessTracker.mk [] true) (CommandSequence.Single "echo hi")).1 =
      Except.error (UpdateError.mk "Operation was cancelled") :=
  (shutdown_before_sequence_cancels_first_step
    (PackageManager.mk (Config.mk []) false)
    (fun _ => OsBehavior.mk (Except.ok 42) false (Except.ok (ExitStatus.exited 0)))
    (ProcessTracker.mk [] true) 42 "echo hi" [] rfl rfl rfl).1.1

/-- C2: for a non-dry-run command whose spawn succeeds, the pid is
registered with the tracker and the shutdown flag is re-checked; if the
flag is set — whether it was already set on entry or a shutdown arrived in
the spawn window — the process is sent SIGTERM and the cancellation error
is returned, and the event trace ends at the SIGTERM: there is no wait. -/
theorem spawn_recheck_cancels_without_wait (pm : PackageManager)
    (os : OsBehavior) (cmd : String) (tr : ProcessTracker) (pid : Nat)
    (hdr : pm.dry_run = false) (hsp : os.spawn = Except.ok pid)
    (hflag : tr.shutdown_requested = true ∨ os.shutdownDuringSpawn = true) :
    (pm.run_single_command os cmd tr).1 =
      Except.error (UpdateError.mk "Operation was cancelled") ∧
    pid ∈ (pm.run_single_command os cmd tr).2.1.active_processes ∧
    (pm.run_single_command os cmd tr).2.2 =
      [Event.spawned pid, Event.sigterm pid] := by
  have hc := run_single_command_cancel pm os cmd tr pid hdr hsp hflag
  refine ⟨by rw [hc], ?_, by rw [hc]⟩
  rw [hc]
  exact ProcessTracker.mem_register _ pid

theorem spawn_recheck_cancels_without_wait_witness :
    ((PackageManager.mk (Config.mk []) false).run_single_command
        (OsBehavior.mk (Except.ok 7) true (Except.ok (ExitStatus.exited 0)))
        "brew upgrade" (ProcessTracker.mk [] false)).2.2 =
      [Event.spawned 7, Event.sigterm 7] :=
  (spawn_recheck_cancels_without_wait (PackageManager.mk (Config.mk []) false)
    (OsBehavior.mk (Except.ok 7) true (Except.ok (ExitStatus.exited 0)))
    "brew upgrade" (ProcessTracker.mk [] false) 7 rfl rfl (Or.inr rfl)).2.2

/-- C10: when `run_single_command` returns the cancellation error, the
just-registered pid is never unregistered: the final active set is exactly
the entry set with the pid inserted, and the pid is still a member after
the call returns. -/
theorem cancelled_pid_remains_registered (pm : PackageManager)
    (os : OsBehavior) (cmd : String) (tr : ProcessTracker) (pid : Nat)
    (hdr : pm.dry_run = false) (hsp : os.spawn = Except.ok pid)
    (hflag : tr.shutdown_requested = true ∨ os.shutdownDuringSpawn = true) :
    (pm.run_single_command os cmd tr).1 =
      Except.error (UpdateError.mk "Operation was cancelled") ∧
    (pm.run_single_command os cmd tr).2.1.active_processes =
      tr.active_processes.insert pid ∧
    pid ∈ (pm.run_single_command os cmd tr).2.1.active_processes := by
  have hc := run_single_command_cancel pm os cmd tr pid hdr hsp hflag
  refine ⟨by rw [hc], ?_, by rw [hc]; exact ProcessTracker.mem_register _ pid⟩
  rw [hc]
  cases hds : os.shutdownDuringSpawn <;>
    simp [hds, ProcessTracker.register_process, ProcessTracker.request_shutdown]

theorem cancelled_pid_remains_registered_witness :
    9 ∈ ((PackageManager.mk (Config.mk []) false).run_single_command
        (OsBehavior.mk (Except.ok 9) false (Except.ok (ExitStatus.exited 0)))
        "apt update" (ProcessTracker.mk [3] true)).2.1.active_processes :=
  (cancelled_pid_remains_registered (PackageManager.mk (Config.mk []) false)
    (OsBehavior.mk (Except.ok 9) false (Except.ok (ExitStatus.exited 0)))
    "apt update" (ProcessTracker.mk [3] true) 9 rfl rfl (Or.inl rfl)).2.2

/-- C3 counterexample: spawn succeeds with pid 7, no shutdown is pending,
and `wait` itself fails.  `wait` has returned (the trace records it), the
wait error is surfaced — yet pid 7 is still registered in the tracker,
refuting "once the wait returns, whether it succeeds or fails, the pid is
unregistered". -/
theorem wait_failure_keeps_pid_counterexample :
    (PackageManager.mk (Config.mk []) false).run_single_command
        (OsBehavior.mk (Except.ok 7) false (Except.error "io error"))
        "make" (ProcessTracker.mk [] false) =
      (Except.error (UpdateError.mk "Failed to wait for command: io error"),
       ProcessTracker.mk [7] false, [Event.spawned 7, Event.waited 7]) ∧
    (ProcessTracker.mk [7] false).active_processes.contains 7 = true :=
  ⟨rfl, rfl⟩

/-- C3 (amended): for a non-dry-run command whose process was spawned and
not cancelled at registration time, the pid is unregistered from the
tracker when `wait` succeeds; when `wait` itself fails, the wait error is
returned and the pid remains registered. -/
theorem unregister_after_wait (pm : PackageManager) (os : OsBehavior)
    (cmd : String) (tr : ProcessTracker) (pid : Nat)
    (hdr : pm.dry_run = false) (hsp : os.spawn = Except.ok pid)
    (htr : tr.shutdown_requested = false) (hds : os.shutdownDuringSpawn = false) :
    (∀ st, os.wait = Except.ok st →
      (pm.run_single_command os cmd tr).1 = Except.ok st ∧
      pid ∉ (pm.run_single_command os cmd tr).2.1.active_processes) ∧
    (∀ msg, os.wait = Except.error msg →
      (pm.run_single_command os cmd tr).1 =
        Except.error (UpdateError.mk ("Failed to wait for command: " ++ msg)) ∧
      pid ∈ (pm.run_single_command os cmd tr).2.1.active_processes) := by
  have hw := run_single_command_wait pm os cmd tr pid hdr hsp htr hds
  constructor
  · intro st hst
    rw [hst] at hw
    refine ⟨by rw [hw], ?_⟩
    rw [hw]
    simp [ProcessTracker.unregister_process, List.mem_filter]
  · intro msg hmsg
    rw [hmsg] at hw
    refine ⟨by rw [hw], ?_⟩
    rw [hw]
    exact ProcessTracker.mem_register _ pid

theorem unregister_after_wait_witness :
    5 ∉ ((PackageManager.mk (Config.mk []) false).run_single_command
        (OsBehavior.mk (Except.ok 5) false (Except.ok (ExitStatus.exited 0)))
        "true" (ProcessTracker.mk [] false)).2.1.active_processes :=
  ((unregister_after_wait (PackageManager.mk (Config.mk []) false)
    (OsBehavior.mk (Except.ok 5) false (Except.ok (ExitStatus.exited 0)))
    "true" (ProcessTracker.mk [] false) 5 rfl rfl rfl rfl).1
    (ExitStatus.exited 0) rfl).2

/-- C4: fail-fast sequencing.  (i) If running a prefix of the declared step
list ends in an error — some step of the prefix being the first to return a
non-success outcome — then `execute_command` on the whole sequence returns
exactly that step's error, with the same tracker state and the same event
trace: the steps after the failing one are never executed and leave no
trace.  (ii) If no shutdown is pending and every step's oracle lets it run
to a successful exit, the sequence returns success. -/
theorem execute_sequence_fail_fast (pm : PackageManager)
    (env : Nat → OsBehavior) (tr : ProcessTracker) :
    (∀ (cmds1 cmds2 : List String) (e : UpdateError) (tr' : ProcessTracker)
        (ev : List Event),
      pm.run_commands env cmds1 tr = (Except.error e, tr', ev) →
      pm.execute_command env tr (CommandSequence.Multiple (cmds1 ++ cmds2)) =
        (Except.error e, tr', ev)) ∧
    (∀ cmds : List String, tr.shutdown_requested = false →
      (∀ i, i < cmds.length → stepSucceeds (env i) = true) →
      (pm.execute_command env tr (CommandSequence.Multiple cmds)).1 =
        Except.ok ()) := by
  constructor
  · intro cmds1 cmds2 e tr' ev h
    show pm.run_commands env (cmds1 ++ cmds2) tr = _
    exact run_commands_error_append pm cmds1 env tr cmds2 e tr' ev h
  · intro cmds htr henv
    show (pm.run_commands env cmds tr).1 = _
    exact run_commands_all_success pm cmds env tr htr henv

theorem execute_sequence_fail_fast_witness :
    (PackageManager.mk (Config.mk []) false).execute_command
        (fun i => if i = 0 then
            OsBehavior.mk (Except.ok 1) false (Except.ok (ExitStatus.exited 0))
          else
            OsBehavior.mk (Except.ok 2) false (Except.ok (ExitStatus.exited 1)))
        (ProcessTracker.mk [] false)
        (CommandSequence.Multiple (["echo a", "exit 1"] ++ ["echo b"])) =
      (Except.error
        (UpdateError.mk "Command failed with exit code: exit status: 1"),
       ProcessTracker.mk [] false,
       [Event.spawned 1, Event.waited 1, Event.spawned 2, Event.waited 2]) :=
  (execute_sequence_fail_fast (PackageManager.mk (Config.mk []) false)
    (fun i => if i = 0 then
        OsBehavior.mk (Except.ok 1) false (Except.ok (ExitStatus.exited 0))
      else
        OsBehavior.mk (Except.ok 2) false (Except.ok (ExitStatus.exited 1)))
    (ProcessTracker.mk [] false)).1 ["echo a", "exit 1"] ["echo b"]
    (UpdateError.mk "Command failed with exit code: exit status: 1")
    (ProcessTracker.mk [] false)
    [Event.spawned 1, Event.waited 1, Event.spawned 2, Event.waited 2] rfl

/-- C7: exit-code classification — when the spawned process is waited for
and exits with code c, code 0 is classified as success and `execute_command`
returns success, while a non-zero c makes `execute_command` return the
error carrying that exit code (via the status display in its message). -/
theorem exit_code_classification (pm : PackageManager) (env : Nat → OsBehavior)
    (cmd : String) (tr : ProcessTracker) (pid : Nat) (c : Nat)
    (hdr : pm.dry_run = false) (htr : tr.shutdown_requested = false)
    (hsp : (env 0).spawn = Except.ok pid)
    (hds : (env 0).shutdownDuringSpawn = false)
    (hw : (env 0).wait = Except.ok (ExitStatus.exited c)) :
    (c = 0 → (pm.execute_command env tr (CommandSequence.Single cmd)).1 =
        Except.ok ()) ∧
    (c ≠ 0 → (pm.execute_command env tr (CommandSequence.Single cmd)).1 =
        Except.error (UpdateError.mk
          ("Command failed with exit code: " ++ (ExitStatus.exited c).display))) := by
  have hrw := run_single_command_wait pm (env 0) cmd tr pid hdr hsp htr hds
  rw [hw] at hrw
  constructor
  · intro h0
    subst h0
    simp [PackageManager.execute_command, hrw, ExitStatus.success]
  · intro hne
    have hsucc : (ExitStatus.exited c).success = false := by
      cases c with
      | zero => exact absurd rfl hne
      | succ n => rfl
    simp [PackageManager.execute_command, hrw, hsucc]

theorem exit_code_classification_witness :
    ((PackageManager.mk (Config.mk []) false).execute_command
        (fun _ => OsBehavior.mk (Except.ok 11) false
          (Except.ok (ExitStatus.exited 1)))
        (ProcessTracker.mk [] false) (CommandSequence.Single "exit 1")).1 =
      Except.error
        (UpdateError.mk "Command failed with exit code: exit status: 1") :=
  (exit_code_classification (PackageManager.mk (Config.mk []) false)
    (fun _ => OsBehavior.mk (Except.ok 11) false (Except.ok (ExitStatus.exited 1)))
    "exit 1" (ProcessTracker.mk [] false) 11 1 rfl rfl rfl rfl rfl).2
    (by decide)

/-- C8: if a manager name matches no entry of the configuration, both the
check and the update operation return the resolution error, the tracker is
untouched, and no event is produced — the executor is never invoked. -/
theorem unknown_manager_resolution_error (pm : PackageManager)
    (env : Nat → OsBehavior) (tr : ProcessTracker) (name : String)
    (sub : Option String)
    (h : ∀ m ∈ pm.config.commands, m.id ≠ name) :
    pm.check_with_subcommand env tr name sub =
      (Except.error (UpdateError.mk (match sub with
        | some sc =>
          "Unknown subcommand '" ++ sc ++ "' for package manager '" ++
            name ++ "'"
        | none => "Unknown package manager or default subcommand: " ++ name)),
       tr, []) ∧
    pm.update_with_subcommand env tr name sub =
      (Except.error (UpdateError.mk (match sub with
        | some sc =>
          "Unknown subcommand '" ++ sc ++ "' for package manager '" ++
            name ++ "'"
        | none => "Unknown package manager or default subcommand: " ++ name)),
       tr, []) := by
  have hfpm : pm.config.find_package_manager name = none := by
    simp only [Config.find_package_manager, List.find?_eq_none]
    intro m hm
    simpa using h m hm
  have hfs : pm.config.find_subcommand name sub = none := by
    simp only [Config.find_subcommand, hfpm]
  constructor <;>
    cases sub <;>
      simp [PackageManager.check_with_subcommand,
        PackageManager.update_with_subcommand, hfs]

theorem unknown_manager_resolution_error_witness :
    (PackageManager.mk (Config.mk [PackageManagerConfig.mk "homebrew"
        [SubcommandConfig.mk "default" (UpdateCommand.mk
          (some (CommandSequence.Single "brew outdated"))
          (some (CommandSequence.Single "brew upgrade")))]
        none none]) false).check_with_subcommand
      (fun _ => OsBehavior.mk (Except.ok 1) false (Except.ok (ExitStatus.exited 0)))
      (ProcessTracker.mk [] false) "unknown" none =
      (Except.error
        (UpdateError.mk "Unknown package manager or default subcommand: unknown"),
       ProcessTracker.mk [] false, []) :=
  (unknown_manager_resolution_error
    (PackageManager.mk (Config.mk [PackageManagerConfig.mk "homebrew"
      [SubcommandConfig.mk "default" (UpdateCommand.mk
        (some (CommandSequence.Single "brew outdated"))
        (some (CommandSequence.Single "brew upgrade")))]
      none none]) false)
    (fun _ => OsBehavior.mk (Except.ok 1) false (Except.ok (ExitStatus.exited 0)))
    (ProcessTracker.mk [] false) "unknown" none (by decide)).1

/-- C9: when a manager — even one carrying legacy direct top-level
check/update fields — is resolved with an explicitly named subcommand that
does not appear in its subcommand list, resolution returns `none`: the
direct top-level fields act as a fallback only when no subcommand name is
given. -/
theorem explicit_subcommand_ignores_direct_fields (c : Config)
    (mid sid : String) (mgr : PackageManagerConfig)
    (hfind : c.find_package_manager mid = some mgr)
    (hdirect : mgr.check.isSome = true ∨ mgr.update.isSome = true)
    (habsent : ∀ sc ∈ mgr.subcommands, sc.id ≠ sid) :
    c.find_subcommand mid (some sid) = none := by
  have hfs : mgr.find_subcommand sid = none := by
    simp only [PackageManagerConfig.find_subcommand, List.find?_eq_none]
    intro sc hsc
    simpa using habsent sc hsc
  simp only [Config.find_subcommand, hfind, hfs]

theorem explicit_subcommand_ignores_direct_fields_witness :
    (Config.mk [PackageManagerConfig.mk "mixed"
      [SubcommandConfig.mk "sub1" (UpdateCommand.mk
        (some (CommandSequence.Single "sub1 check")) none)]
      (some (CommandSequence.Single "mixed check"))
      (some (CommandSequence.Single "mixed update"))]).find_subcommand
      "mixed" (some "nonexistent") = none :=
  explicit_subcommand_ignores_direct_fields
    (Config.mk [PackageManagerConfig.mk "mixed"
      [SubcommandConfig.mk "sub1" (UpdateCommand.mk
        (some (CommandSequence.Single "sub1 check")) none)]
      (some (CommandSequence.Single "mixed check"))
      (some (CommandSequence.Single "mixed update"))])
    "mixed" "nonexistent"
    (PackageManagerConfig.mk "mixed"
      [SubcommandConfig.mk "sub1" (UpdateCommand.mk
        (some (CommandSequence.Single "sub1 check")) none)]
      (some (CommandSequence.Single "mixed check"))
      (some (CommandSequence.Single "mixed update")))
    (by decide) (Or.inl rfl) (by decide)

/-- C5 counterexample: on receiving SIGINT (signal 2) with pid 10
registered, the handler's complete effect is to set the shutdown flag and
send SIGTERM to pid 10; its action trace contains no program-exit action at
all — in particular none with status 130 = 128 + 2 — refuting "terminates
the whole program with exit status 128 plus the signal number". -/
theorem signal_handler_no_exit_counterexample :
    handle_signal 2 (ProcessTracker.mk [10] false) =
      (ProcessTracker.mk [10] true, [Event.sigterm 10]) ∧
    ((handle_signal 2 (ProcessTracker.mk [10] false)).2.contains
      (Event.exitProgram 130)) = false :=
  ⟨rfl, rfl⟩

/-- C5 (amended): when an interrupt-class signal is received, the installed
handler sets the Process Tracker's shutdown flag and sends SIGTERM to every
registered process id, leaving the registered set itself unchanged; it does
not terminate the program — no program-exit action (with status 128 plus
the signal number or any other) is performed. -/
theorem signal_handler_flag_and_terminate (sig : Nat) (tr : ProcessTracker) :
    (handle_signal sig tr).1.shutdown_requested = true ∧
    (handle_signal sig tr).1.active_processes = tr.active_processes ∧
    (handle_signal sig tr).2 = tr.active_processes.map Event.sigterm ∧
    (handle_signal sig tr).2.all (fun e => !e.isExitProgram) = true := by
  refine ⟨rfl, rfl, rfl, ?_⟩
  simp only [handle_signal, ProcessTracker.request_shutdown,
    ProcessTracker.terminate_all_processes, List.all_eq_true, List.mem_map]
  rintro e ⟨x, hx, rfl⟩
  rfl
